import Mathlib

/-!
Verification of the ESP32-cam upload relay server (`src/app.py`, Flask).

The file shallowly embeds the request handlers of `app.py`:

* `upload`      — the `POST /upload` handler (lines 92–174 of `app.py`);
* `handleUpload`— `upload` together with Flask's framework-level
  `MAX_CONTENT_LENGTH` check (the app never sets that option, so the
  configured limit is `none`, Flask's default);
* `list_files`  — the `GET /list-files` handler (lines 176–202).

Side effects are made explicit: the local staging directory is an
association list from paths to byte contents, every `file.save` and every
`blob.upload_from_filename` invocation is recorded in the outcome, and the
nondeterministic inputs of a request (the random `uuid.uuid4().time_low`
token, whether the local write produces a file, whether the remote
object-storage call succeeds, and the text of a remote error) are packaged
in an `Env` record.
-/

namespace ESP32Cam

/-- Bytes of a payload, each in `0..255` (the bound is irrelevant to the
properties proved here). -/
abbrev Bytes := List Nat

/-- A multipart file part, as werkzeug's `FileStorage` presents it: a
client-supplied filename hint, the payload bytes, and the declared content
type. -/
structure FileStorage where
  filename : String
  content : Bytes
  contentType : String
  deriving Repr, DecidableEq

/-- Werkzeug `FileStorage.__bool__`: a `FileStorage` is truthy iff its
filename is non-empty (`bool(self.filename)`). This is what `if not file:`
on line 111 of `app.py` tests. -/
def fileTruthy (f : FileStorage) : Bool :=
  f.filename != ""

/-- The `request.files` multidict, as an association list from field name
to file part; lookup returns the first binding, as werkzeug does. -/
def filesLookup : List (String × FileStorage) → String → Option FileStorage
  | [], _ => none
  | (k, f) :: rest, key => if k = key then some f else filesLookup rest key

/-- The local staging directory: paths under `uploads/` mapped to byte
contents. -/
abbrev FsState := List (String × Bytes)

/-- `os.path.exists` / reading a staged file: first binding for the path. -/
def fsLookup : FsState → String → Option Bytes
  | [], _ => none
  | (p, c) :: rest, path => if p = path then some c else fsLookup rest path

/-- `file.save(path)`: (over)write `path` with the payload bytes. -/
def fsInsert (fs : FsState) (path : String) (c : Bytes) : FsState :=
  (path, c) :: fs.filter (fun p => p.1 != path)

/-- `os.remove(path)`: drop every binding for `path`. -/
def fsErase (fs : FsState) (path : String) : FsState :=
  fs.filter (fun p => p.1 != path)

/-- `os.path.getsize(path)` (0 when absent; the handler only reads it after
an existence check). -/
def fsSize (fs : FsState) (path : String) : Nat :=
  ((fsLookup fs path).getD []).length

/-- One `blob.upload_from_filename(local_path, content_type=...)` call:
the blob path, the staged bytes pushed, and the content type passed. -/
structure RemoteCall where
  path : String
  content : Bytes
  contentType : String
  deriving Repr, DecidableEq

/-- The JSON body of a response; absent keys are `none`. -/
structure Body where
  message : Option String := none
  error : Option String := none
  filename : Option String := none
  url : Option String := none
  size : Option Nat := none
  timestamp : Option Nat := none
  deriving Repr, DecidableEq

/-- Everything a request run produces: HTTP status, JSON body, the staging
directory afterwards, the `file.save` invocations (paths) and the remote
upload invocations, in order. -/
structure Outcome where
  status : Nat
  body : Body
  fs : FsState
  saves : List String
  calls : List RemoteCall
  deriving Repr, DecidableEq

/-- The environment of one request: the random token
(`int(uuid.uuid4().time_low)`, line 116), whether `file.save` actually
produces a file on disk, whether the object-storage upload succeeds,
the `str(e)` text of the remote error when it fails, and the storage
bucket name. -/
structure Env where
  token : Nat
  saveCreatesFile : Bool
  remoteOk : Bool
  remoteErrMsg : String
  bucketName : String
  deriving Repr, DecidableEq

/-- `UPLOAD_FOLDER = 'uploads'` (line 55). -/
def UPLOAD_FOLDER : String := "uploads"

/-- Line 117: `filename = f"esp32cam_{timestamp}.jpg"`. -/
def genFilename (token : Nat) : String :=
  "esp32cam_" ++ toString token ++ ".jpg"

/-- Line 118: `local_path = os.path.join(UPLOAD_FOLDER, filename)`. -/
def localPath (token : Nat) : String :=
  UPLOAD_FOLDER ++ "/" ++ genFilename token

/-- Lines 122–174 of `app.py`: the body of the `try`/`except` once a file
part with a non-empty filename is in hand. `file.save` writes the payload
(unless the environment says the write fails to produce a file); the
handler then re-checks existence and size, uploads to
`esp32cam/<filename>` with the hard-coded content type `'image/jpeg'`,
makes the blob public, removes the staged file and answers 200. Any raised
exception lands in the `except` block, which removes the staged file if it
exists and answers 500 with the exception text. -/
def uploadStaged (env : Env) (file : FileStorage) (fs : FsState) : Outcome :=
  let timestamp := env.token
  let filename := genFilename timestamp
  let local_path := localPath timestamp
  let fs1 := if env.saveCreatesFile then fsInsert fs local_path file.content else fs
  if fsLookup fs1 local_path = none then
    -- raise Exception("No se pudo guardar el archivo temporalmente");
    -- except: os.path.exists(local_path) is false, nothing to remove
    { status := 500
      body := { error := some "❌ Error al subir imagen: No se pudo guardar el archivo temporalmente" }
      fs := fs1, saves := [local_path], calls := [] }
  else
    let file_size := fsSize fs1 local_path
    if file_size = 0 then
      -- raise Exception("El archivo guardado está vacío"); except: remove
      { status := 500
        body := { error := some "❌ Error al subir imagen: El archivo guardado está vacío" }
        fs := fsErase fs1 local_path, saves := [local_path], calls := [] }
    else
      let blob_path := "esp32cam/" ++ filename
      let call : RemoteCall :=
        { path := blob_path
          content := (fsLookup fs1 local_path).getD []
          contentType := "image/jpeg" }
      if env.remoteOk then
        let public_url :=
          "https://storage.googleapis.com/" ++ env.bucketName ++ "/" ++ blob_path
        { status := 200
          body := { message := some "✅ Imagen subida exitosamente"
                    filename := some filename
                    url := some public_url
                    size := some file_size
                    timestamp := some timestamp }
          fs := fsErase fs1 local_path, saves := [local_path], calls := [call] }
      else
        -- blob.upload_from_filename raises; except: remove staged file, 500
        { status := 500
          body := { error := some ("❌ Error al subir imagen: " ++ env.remoteErrMsg) }
          fs := fsErase fs1 local_path, saves := [local_path], calls := [call] }

/-- Lines 92–174 of `app.py`: the `POST /upload` handler. Checks the
`'photo'` field is present (line 97), the filename non-empty (line 106),
the `FileStorage` truthy (line 111), then runs the staged pipeline. -/
def upload (env : Env) (files : List (String × FileStorage)) (fs : FsState) : Outcome :=
  match filesLookup files "photo" with
  | none =>
      { status := 400
        body := { error := some "No se encontró el archivo \"photo\" en la solicitud" }
        fs := fs, saves := [], calls := [] }
  | some file =>
      if file.filename = "" then
        { status := 400
          body := { error := some "No se seleccionó ningún archivo" }
          fs := fs, saves := [], calls := [] }
      else if fileTruthy file = false then
        { status := 400
          body := { error := some "El archivo está vacío" }
          fs := fs, saves := [], calls := [] }
      else
        uploadStaged env file fs

/-- The app's configured maximum request size: `app.py` line 9 creates
`Flask(__name__)` and never sets `app.config['MAX_CONTENT_LENGTH']`, so
the Flask default `None` (no limit) is in force. -/
def MAX_CONTENT_LENGTH : Option Nat := none

/-- The request body size Flask would compare against the limit; for a
multipart request it is at least the sum of the part payload sizes. -/
def requestContentLength (files : List (String × FileStorage)) : Nat :=
  (files.map (fun p => p.2.content.length)).sum

/-- Flask's framework-level size gate around the handler: with
`MAX_CONTENT_LENGTH` set, an oversized body is answered 413 before the
handler runs; with the default `none`, the handler always runs. -/
def handleUpload (env : Env) (files : List (String × FileStorage)) (fs : FsState) : Outcome :=
  match MAX_CONTENT_LENGTH with
  | some m =>
      if requestContentLength files > m then
        { status := 413, body := {}, fs := fs, saves := [], calls := [] }
      else upload env files fs
  | none => upload env files fs

/-! ### The `GET /list-files` handler (lines 176–202 of `app.py`) -/

/-- A blob as object storage reports it: full name, byte size, and the
ISO-8601 text of its creation time (`blob.time_created.isoformat()`), or
`none` when the creation time is absent. -/
structure Blob where
  name : String
  size : Nat
  timeCreated : Option String
  deriving Repr, DecidableEq

/-- One element of the `files` array the handler returns (lines 185–190). -/
structure FileEntry where
  name : String
  size : Nat
  created : Option String
  url : String
  deriving Repr, DecidableEq

/-- The sort key of line 193: `x['created'] or ''` — the created text, or
the empty string when `created` is `None`. -/
def sortKey (e : FileEntry) : String :=
  e.created.getD ""

/-- Insert into a list already sorted descending by `sortKey`, before the
first element whose key is `≤` the new one. -/
def insertDesc (e : FileEntry) : List FileEntry → List FileEntry
  | [] => [e]
  | x :: xs => if sortKey x ≤ sortKey e then e :: x :: xs else x :: insertDesc e xs

/-- Line 193: `files.sort(key=lambda x: x['created'] or '', reverse=True)`,
a stable sort descending by key; embedded as a stable insertion sort, which
computes the same list as any stable descending sort. -/
def sortByCreatedDesc : List FileEntry → List FileEntry
  | [] => []
  | x :: xs => insertDesc x (sortByCreatedDesc xs)

/-- Lines 176–198 of `app.py`: `bucket.list_blobs(prefix='esp32cam/')`
returns exactly the blobs whose names start with the prefix (object-storage
listing semantics, modelled by the filter); each is mapped to a `FileEntry`
with the public URL of line 189, and the list is sorted as on line 193. -/
def list_files (bucketName : String) (blobs : List Blob) : List FileEntry :=
  let matched := blobs.filter (fun b => String.isPrefixOf "esp32cam/" b.name)
  let files := matched.map (fun b =>
    { name := b.name
      size := b.size
      created := b.timeCreated
      url := "https://storage.googleapis.com/" ++ bucketName ++ "/" ++ b.name : FileEntry })
  sortByCreatedDesc files

/-! ### Helper lemmas -/

lemma fsLookup_fsInsert (fs : FsState) (p : String) (c : Bytes) :
    fsLookup (fsInsert fs p c) p = some c := by
  simp [fsInsert, fsLookup]

lemma fsLookup_fsErase (fs : FsState) (p : String) :
    fsLookup (fsErase fs p) p = none := by
  induction fs with
  | nil => rfl
  | cons q rest ih =>
      unfold fsErase at ih ⊢
      by_cases h : q.1 = p
      · simp [List.filter_cons, h, ih]
      · simp [List.filter_cons, h, fsLookup, ih]

lemma fsSize_fsInsert (fs : FsState) (p : String) (c : Bytes) :
    fsSize (fsInsert fs p c) p = c.length := by
  simp [fsSize, fsLookup_fsInsert]

/-- Validation passed: the handler runs the staged pipeline. -/
lemma upload_eq_uploadStaged (env : Env) (files : List (String × FileStorage))
    (fs : FsState) (f : FileStorage)
    (hf : filesLookup files "photo" = some f) (hn : f.filename ≠ "") :
    upload env files fs = uploadStaged env f fs := by
  unfold upload
  rw [hf]
  have ht : fileTruthy f = true := by simp [fileTruthy, hn]
  simp [hn, ht]

lemma mem_insertDesc {e x : FileEntry} {l : List FileEntry} :
    x ∈ insertDesc e l ↔ x = e ∨ x ∈ l := by
  induction l with
  | nil => simp [insertDesc]
  | cons y ys ih =>
      unfold insertDesc
      by_cases h : sortKey y ≤ sortKey e
      · simp [h]
      · simp only [h, if_false, List.mem_cons, ih]
        tauto

lemma pairwise_insertDesc {e : FileEntry} {l : List FileEntry}
    (h : l.Pairwise (fun a b => sortKey b ≤ sortKey a)) :
    (insertDesc e l).Pairwise (fun a b => sortKey b ≤ sortKey a) := by
  induction l with
  | nil => simp [insertDesc]
  | cons y ys ih =>
      rw [List.pairwise_cons] at h
      obtain ⟨hy, hys⟩ := h
      unfold insertDesc
      by_cases hc : sortKey y ≤ sortKey e
      · rw [if_pos hc]
        refine List.Pairwise.cons ?_ (List.Pairwise.cons hy hys)
        intro b hb
        rcases List.mem_cons.mp hb with rfl | hb
        · exact hc
        · exact le_trans (hy b hb) hc
      · rw [if_neg hc]
        refine List.Pairwise.cons ?_ (ih hys)
        intro b hb
        rcases mem_insertDesc.mp hb with rfl | hb
        · exact le_of_not_le hc
        · exact hy b hb

lemma mem_sortByCreatedDesc {x : FileEntry} {l : List FileEntry} :
    x ∈ sortByCreatedDesc l ↔ x ∈ l := by
  induction l with
  | nil => exact Iff.rfl
  | cons y ys ih =>
      show x ∈ insertDesc y (sortByCreatedDesc ys) ↔ _
      rw [mem_insertDesc, ih]
      simp

lemma pairwise_sortByCreatedDesc (l : List FileEntry) :
    (sortByCreatedDesc l).Pairwise (fun a b => sortKey b ≤ sortKey a) := by
  induction l with
  | nil => exact List.Pairwise.nil
  | cons y ys ih => exact pairwise_insertDesc ih

lemma string_le_empty {s : String} (h : s ≤ "") : s = "" := by
  have h2 : ("" : String) ≤ s := by
    rw [String.le_iff_toList_le]
    exact List.nil_le
  exact le_antisymm h h2

/-- A list sorted descending by `sortKey`, none of whose entries has
`created = some ""`, puts every `created = none` entry after all entries
that have a creation time. -/
lemma none_sorts_last {r : List FileEntry}
    (hs : r.Pairwise (fun a b => sortKey b ≤ sortKey a))
    (hne : ∀ e ∈ r, e.created ≠ some "") :
    r.Pairwise (fun a b => a.created = none → b.created = none) := by
  induction r with
  | nil => exact List.Pairwise.nil
  | cons x xs ih =>
      rw [List.pairwise_cons] at hs ⊢
      obtain ⟨hx, hxs⟩ := hs
      refine ⟨?_, ih hxs fun e he => hne e (List.mem_cons_of_mem _ he)⟩
      intro b hb hxnone
      have hkey : sortKey b ≤ sortKey x := hx b hb
      rw [show sortKey x = "" by simp [sortKey, hxnone]] at hkey
      have hb0 : sortKey b = "" := string_le_empty hkey
      cases hcb : b.created with
      | none => rfl
      | some s =>
          exfalso
          have hs0 : s = "" := by simpa [sortKey, hcb] using hb0
          exact hne b (List.mem_cons_of_mem _ hb) (by rw [hcb, hs0])

/-- Local write succeeded and the payload is non-empty: the staged pipeline
reaches the remote call, and the outcome is decided by the remote result. -/
lemma uploadStaged_saved (env : Env) (f : FileStorage) (fs : FsState)
    (hsave : env.saveCreatesFile = true) (hc : f.content ≠ []) :
    uploadStaged env f fs =
      (if env.remoteOk then
        { status := 200
          body := { message := some "✅ Imagen subida exitosamente"
                    filename := some (genFilename env.token)
                    url := some ("https://storage.googleapis.com/" ++ env.bucketName
                      ++ "/" ++ ("esp32cam/" ++ genFilename env.token))
                    size := some f.content.length
                    timestamp := some env.token }
          fs := fsErase (fsInsert fs (localPath env.token) f.content) (localPath env.token)
          saves := [localPath env.token]
          calls := [{ path := "esp32cam/" ++ genFilename env.token
                      content := f.content, contentType := "image/jpeg" }] }
      else
        { status := 500
          body := { error := some ("❌ Error al subir imagen: " ++ env.remoteErrMsg) }
          fs := fsErase (fsInsert fs (localPath env.token) f.content) (localPath env.token)
          saves := [localPath env.token]
          calls := [{ path := "esp32cam/" ++ genFilename env.token
                      content := f.content, contentType := "image/jpeg" }] }) := by
  unfold uploadStaged
  rw [hsave]
  simp only [if_true, fsLookup_fsInsert, fsSize_fsInsert, Option.getD_some]
  rw [if_neg (by simp)]
  rw [if_neg (by simpa using hc)]

/-- Local write produced no file (and none was already at the path): the
existence check fails, so the handler answers 500 without a remote call. -/
lemma uploadStaged_save_failed (env : Env) (f : FileStorage) (fs : FsState)
    (hsave : env.saveCreatesFile = false)
    (habsent : fsLookup fs (localPath env.token) = none) :
    uploadStaged env f fs =
      { status := 500
        body := { error := some "❌ Error al subir imagen: No se pudo guardar el archivo temporalmente" }
        fs := fs, saves := [localPath env.token], calls := [] } := by
  unfold uploadStaged
  rw [hsave]
  simp [habsent]

/-- Zero-byte payload: the post-write size check fails, so the handler
answers 500 without a remote call and removes the staged file. -/
lemma uploadStaged_empty_payload (env : Env) (f : FileStorage) (fs : FsState)
    (hsave : env.saveCreatesFile = true) (hc : f.content = []) :
    uploadStaged env f fs =
      { status := 500
        body := { error := some "❌ Error al subir imagen: El archivo guardado está vacío" }
        fs := fsErase (fsInsert fs (localPath env.token) f.content) (localPath env.token)
        saves := [localPath env.token], calls := [] } := by
  unfold uploadStaged
  rw [hsave]
  simp only [if_true, fsLookup_fsInsert, fsSize_fsInsert, hc, List.length_nil]
  rw [if_neg (by simp)]

/-- Once validation passes, exactly one `file.save` is attempted, at the
generated path — in every branch of the staged pipeline. -/
lemma uploadStaged_saves_eq (env : Env) (f : FileStorage) (fs : FsState) :
    (uploadStaged env f fs).saves = [localPath env.token] := by
  unfold uploadStaged
  simp only []
  repeat' split
  all_goals rfl

/-- The staged pipeline only answers 200 or 500. -/
lemma uploadStaged_status_or (env : Env) (f : FileStorage) (fs : FsState) :
    (uploadStaged env f fs).status = 200 ∨ (uploadStaged env f fs).status = 500 := by
  unfold uploadStaged
  simp only []
  repeat' split
  all_goals first | exact Or.inl rfl | exact Or.inr rfl

/-! ### Sample inputs for concrete evaluations -/

/-- A sample request environment: token 5, local write succeeds, remote
call succeeds. -/
def sampleEnv : Env :=
  { token := 5, saveCreatesFile := true, remoteOk := true
    remoteErrMsg := "boom", bucketName := "demo-bucket" }

/-- A file part whose filename extension is far outside the allowed image
set. -/
def sampleExe : FileStorage :=
  { filename := "malware.exe", content := [1, 2], contentType := "application/octet-stream" }

/-- An ordinary JPEG file part. -/
def sampleJpg : FileStorage :=
  { filename := "shot.jpg", content := [1, 2, 3], contentType := "image/jpeg" }

/-- A file part declaring the content type image/png. -/
def samplePng : FileStorage :=
  { filename := "shot.png", content := [7], contentType := "image/png" }

/-- A zero-byte file part. -/
def sampleEmpty : FileStorage :=
  { filename := "empty.jpg", content := [], contentType := "image/jpeg" }

/-! ### Claims -/

/-- C1, counterexample: a `.exe` filename — outside the allowed
image-extension set — is not rejected: the upload passes validation, is
staged (one local save) and succeeds with status 200, refuting the claimed
extension check. -/
theorem C1_counterexample :
    (upload sampleEnv [("photo", sampleExe)] []).status = 200 ∧
    (upload sampleEnv [("photo", sampleExe)] []).saves = ["uploads/esp32cam_5.jpg"] := by
  decide

/-- C1, amended: the handler performs no filename-extension check at all:
every request whose `photo` part has a non-empty filename passes validation
— whatever the extension — staging is attempted at the generated path, and
the response is never a 400. -/
theorem C1_no_extension_check (env : Env) (files : List (String × FileStorage))
    (fs : FsState) (f : FileStorage)
    (hf : filesLookup files "photo" = some f) (hn : f.filename ≠ "") :
    (upload env files fs).status ≠ 400 ∧
    (upload env files fs).saves = [localPath env.token] := by
  rw [upload_eq_uploadStaged env files fs f hf hn]
  refine ⟨?_, uploadStaged_saves_eq env f fs⟩
  rcases uploadStaged_status_or env f fs with h | h <;> omega

/-- C1, witness: the amended theorem applied to the `.exe` request. -/
theorem C1_witness :
    (upload sampleEnv [("photo", sampleExe)] []).saves = [localPath sampleEnv.token] :=
  (C1_no_extension_check sampleEnv [("photo", sampleExe)] [] sampleExe (by decide)
    (by decide)).2

/-- C5: a request without a `photo` part, or whose part has an empty
filename, is answered 400 with a descriptive error message; the staging
directory is untouched and no save and no remote call happens. -/
theorem C5_missing_part_rejected (env : Env) (files : List (String × FileStorage))
    (fs : FsState) :
    (filesLookup files "photo" = none →
      (upload env files fs).status = 400 ∧
      (upload env files fs).body.error =
        some "No se encontró el archivo \"photo\" en la solicitud" ∧
      (upload env files fs).fs = fs ∧
      (upload env files fs).saves = [] ∧
      (upload env files fs).calls = []) ∧
    (∀ f, filesLookup files "photo" = some f → f.filename = "" →
      (upload env files fs).status = 400 ∧
      (upload env files fs).body.error = some "No se seleccionó ningún archivo" ∧
      (upload env files fs).fs = fs ∧
      (upload env files fs).saves = [] ∧
      (upload env files fs).calls = []) := by
  constructor
  · intro h
    unfold upload
    rw [h]
    exact ⟨rfl, rfl, rfl, rfl, rfl⟩
  · intro f hf he
    unfold upload
    rw [hf]
    simp [he]

/-- C5, witness: the theorem applied to a request with no file part. -/
theorem C5_witness :
    (upload sampleEnv [] []).status = 400 ∧
    (upload sampleEnv [] []).body.error =
      some "No se encontró el archivo \"photo\" en la solicitud" ∧
    (upload sampleEnv [] []).fs = [] ∧
    (upload sampleEnv [] []).saves = [] ∧
    (upload sampleEnv [] []).calls = [] :=
  (C5_missing_part_rejected sampleEnv [] []).1 rfl

/-- C10: with the `photo` part present and its filename non-empty, the
`if not file:` branch (400, message "El archivo está vacío") is
unreachable — werkzeug's `FileStorage` truthiness tests the filename — so
the request always proceeds to identity generation and staging; a zero-byte
payload is caught only by the post-staging size check, as a 500. -/
theorem C10_empty_file_branch_unreachable (env : Env)
    (files : List (String × FileStorage)) (fs : FsState) (f : FileStorage)
    (hf : filesLookup files "photo" = some f) (hn : f.filename ≠ "") :
    ¬((upload env files fs).status = 400 ∧
      (upload env files fs).body.error = some "El archivo está vacío") ∧
    (upload env files fs).saves = [localPath env.token] ∧
    (env.saveCreatesFile = true → f.content = [] →
      (upload env files fs).status = 500 ∧
      (upload env files fs).body.error =
        some "❌ Error al subir imagen: El archivo guardado está vacío") := by
  rw [upload_eq_uploadStaged env files fs f hf hn]
  refine ⟨?_, uploadStaged_saves_eq env f fs, ?_⟩
  · intro hcontra
    obtain ⟨h400, -⟩ := hcontra
    rcases uploadStaged_status_or env f fs with h | h <;> omega
  · intro hsave hc
    rw [uploadStaged_empty_payload env f fs hsave hc]
    exact ⟨rfl, rfl⟩

/-- C10, witness: a zero-byte payload with a non-empty filename is not
answered by the unreachable 400 branch but by the post-staging size check. -/
theorem C10_witness :
    (upload sampleEnv [("photo", sampleEmpty)] []).status = 500 ∧
    (upload sampleEnv [("photo", sampleEmpty)] []).body.error =
      some "❌ Error al subir imagen: El archivo guardado está vacío" :=
  (C10_empty_file_branch_unreachable sampleEnv [("photo", sampleEmpty)] [] sampleEmpty
    (by decide) (by decide)).2.2 rfl rfl

/-- C2, counterexample: with staging succeeded and the remote transfer
failing, the response's HTTP status is 500 — not 200 — and the body
carries no `filename` field, refuting the claimed partial-success
response shape. -/
theorem C2_counterexample :
    (upload { sampleEnv with remoteOk := false } [("photo", sampleJpg)] []).status = 500 ∧
    (upload { sampleEnv with remoteOk := false } [("photo", sampleJpg)] []).body.filename
      = none := by
  decide

/-- C2, amended: when staging succeeds but the remote transfer fails, the
handler answers a generic HTTP 500 whose `error` field embeds the
underlying remote error text; the body carries no `filename`, no `url` and
no partial-success classification. -/
theorem C2_remote_failure_is_500 (env : Env) (files : List (String × FileStorage))
    (fs : FsState) (f : FileStorage)
    (hf : filesLookup files "photo" = some f) (hn : f.filename ≠ "")
    (hsave : env.saveCreatesFile = true) (hc : f.content ≠ [])
    (hr : env.remoteOk = false) :
    (upload env files fs).status = 500 ∧
    (upload env files fs).body.error =
      some ("❌ Error al subir imagen: " ++ env.remoteErrMsg) ∧
    (upload env files fs).body.filename = none ∧
    (upload env files fs).body.url = none := by
  rw [upload_eq_uploadStaged env files fs f hf hn]
  rw [uploadStaged_saved env f fs hsave hc]
  rw [if_neg (by simp [hr])]
  exact ⟨rfl, rfl, rfl, rfl⟩

/-- C2, witness: the amended theorem at a concrete failing-remote request. -/
theorem C2_witness :
    (upload { sampleEnv with remoteOk := false } [("photo", sampleJpg)] []).body.error =
      some ("❌ Error al subir imagen: "
        ++ ({ sampleEnv with remoteOk := false } : Env).remoteErrMsg) :=
  (C2_remote_failure_is_500 { sampleEnv with remoteOk := false } [("photo", sampleJpg)]
    [] sampleJpg (by decide) (by decide) rfl (by decide) rfl).2.1

/-- C3: whenever a request passes validation and the local write produces
the staged file, that file is gone from the staging directory in the
returned outcome — on success, on remote-transfer failure, and on the
zero-size staging failure alike. -/
theorem C3_staged_file_always_cleaned (env : Env)
    (files : List (String × FileStorage)) (fs : FsState) (f : FileStorage)
    (hf : filesLookup files "photo" = some f) (hn : f.filename ≠ "")
    (hsave : env.saveCreatesFile = true) :
    fsLookup (upload env files fs).fs (localPath env.token) = none := by
  rw [upload_eq_uploadStaged env files fs f hf hn]
  by_cases hc : f.content = []
  · rw [uploadStaged_empty_payload env f fs hsave hc]
    exact fsLookup_fsErase _ _
  · rw [uploadStaged_saved env f fs hsave hc]
    by_cases hr : env.remoteOk = true
    · rw [if_pos hr]
      exact fsLookup_fsErase _ _
    · rw [if_neg hr]
      exact fsLookup_fsErase _ _

/-- C3, witness: cleanup at a concrete successful upload. -/
theorem C3_witness :
    fsLookup (upload sampleEnv [("photo", sampleJpg)] []).fs
      (localPath sampleEnv.token) = none :=
  C3_staged_file_always_cleaned sampleEnv [("photo", sampleJpg)] [] sampleJpg
    (by decide) (by decide) rfl

/-- C4: a successful upload's `size` field is the exact byte length of the
submitted payload; and when the post-write verification finds the staged
file missing, or finds it zero-sized, the request fails with a 500 and no
remote call is attempted. -/
theorem C4_size_exact_and_staging_verified (env : Env)
    (files : List (String × FileStorage)) (fs : FsState) (f : FileStorage)
    (hf : filesLookup files "photo" = some f) (hn : f.filename ≠ "") :
    (env.saveCreatesFile = true → f.content ≠ [] → env.remoteOk = true →
      (upload env files fs).status = 200 ∧
      (upload env files fs).body.size = some f.content.length) ∧
    (env.saveCreatesFile = false → fsLookup fs (localPath env.token) = none →
      (upload env files fs).status = 500 ∧ (upload env files fs).calls = []) ∧
    (env.saveCreatesFile = true → f.content = [] →
      (upload env files fs).status = 500 ∧ (upload env files fs).calls = []) := by
  rw [upload_eq_uploadStaged env files fs f hf hn]
  refine ⟨?_, ?_, ?_⟩
  · intro hsave hc hr
    rw [uploadStaged_saved env f fs hsave hc, if_pos hr]
    exact ⟨rfl, by simp [fsSize_fsInsert]⟩
  · intro hsave habsent
    rw [uploadStaged_save_failed env f fs hsave habsent]
    exact ⟨rfl, rfl⟩
  · intro hsave hc
    rw [uploadStaged_empty_payload env f fs hsave hc]
    exact ⟨rfl, rfl⟩

/-- C4, witness: a concrete 3-byte upload reports size 3. -/
theorem C4_witness :
    (upload sampleEnv [("photo", sampleJpg)] []).status = 200 ∧
    (upload sampleEnv [("photo", sampleJpg)] []).body.size =
      some sampleJpg.content.length :=
  (C4_size_exact_and_staging_verified sampleEnv [("photo", sampleJpg)] [] sampleJpg
    (by decide) (by decide)).1 rfl (by decide) rfl

/-- C6, counterexample: the sender declares content type `image/png`, yet
the remote call is made with content type `image/jpeg` — the declared
content type is not the one used. -/
theorem C6_counterexample :
    samplePng.contentType = "image/png" ∧
    (upload sampleEnv [("photo", samplePng)] []).calls =
      [{ path := "esp32cam/esp32cam_5.jpg", content := [7]
         contentType := "image/jpeg" }] ∧
    ("image/jpeg" : String) ≠ samplePng.contentType := by
  decide

/-- C6, amended: every request that reaches the remote-transfer step pushes
the staged bytes to `esp32cam/<generated-filename>` with the hard-coded
content type `image/jpeg`, whatever content type the sender declared. -/
theorem C6_remote_call_hardcoded_type (env : Env)
    (files : List (String × FileStorage)) (fs : FsState) (f : FileStorage)
    (hf : filesLookup files "photo" = some f) (hn : f.filename ≠ "")
    (hsave : env.saveCreatesFile = true) (hc : f.content ≠ []) :
    (upload env files fs).calls =
      [{ path := "esp32cam/" ++ genFilename env.token
         content := f.content
         contentType := "image/jpeg" }] := by
  rw [upload_eq_uploadStaged env files fs f hf hn]
  rw [uploadStaged_saved env f fs hsave hc]
  by_cases hr : env.remoteOk = true
  · rw [if_pos hr]
  · rw [if_neg hr]

/-- C6, witness: the amended theorem at the PNG-declaring request. -/
theorem C6_witness :
    (upload sampleEnv [("photo", samplePng)] []).calls =
      [{ path := "esp32cam/" ++ genFilename sampleEnv.token
         content := samplePng.content
         contentType := "image/jpeg" }] :=
  C6_remote_call_hardcoded_type sampleEnv [("photo", samplePng)] [] samplePng
    (by decide) (by decide) rfl (by decide)

/-- C9: for every accepted upload the staged path is exactly
`uploads/esp32cam_<token>.jpg`, where `<token>` is the decimal text of the
request's random token (`uuid.uuid4().time_low`), and the staged path is
the same whatever file part the client sent — no part of the generated
name derives from the client filename hint. -/
theorem C9_generated_filename (env : Env) (files : List (String × FileStorage))
    (fs : FsState) (f : FileStorage)
    (hf : filesLookup files "photo" = some f) (hn : f.filename ≠ "") :
    (upload env files fs).saves =
      ["uploads/" ++ ("esp32cam_" ++ toString env.token ++ ".jpg")] ∧
    (∀ (files' : List (String × FileStorage)) (fs' : FsState) (g : FileStorage),
      filesLookup files' "photo" = some g → g.filename ≠ "" →
      (upload env files' fs').saves = (upload env files fs).saves) := by
  have h1 : (upload env files fs).saves = [localPath env.token] := by
    rw [upload_eq_uploadStaged env files fs f hf hn]
    exact uploadStaged_saves_eq env f fs
  constructor
  · rw [h1]
    rfl
  · intro files' fs' g hg hgn
    rw [h1, upload_eq_uploadStaged env files' fs' g hg hgn]
    exact uploadStaged_saves_eq env g fs'

/-- C9, witness: the generated staged path at token 5 and a `.jpg` hint. -/
theorem C9_witness :
    (upload sampleEnv [("photo", sampleJpg)] []).saves =
      ["uploads/" ++ ("esp32cam_" ++ toString sampleEnv.token ++ ".jpg")] :=
  (C9_generated_filename sampleEnv [("photo", sampleJpg)] [] sampleJpg
    (by decide) (by decide)).1

/-- A 17 MiB payload — larger than the 16 MiB maximum the claim posits. -/
def bigFile : FileStorage :=
  { filename := "big.jpg", content := List.replicate 17825792 0
    contentType := "image/jpeg" }

/-- C7, counterexample: a request whose body exceeds 16 MiB is not answered
413 — it is staged and processed normally, here succeeding with 200. -/
theorem C7_counterexample :
    requestContentLength [("photo", bigFile)] = 17825792 ∧
    16777216 < requestContentLength [("photo", bigFile)] ∧
    (handleUpload sampleEnv [("photo", bigFile)] []).status = 200 ∧
    (handleUpload sampleEnv [("photo", bigFile)] []).saves =
      [localPath sampleEnv.token] := by
  have hclen : bigFile.content.length = 17825792 := by
    rw [show bigFile.content = List.replicate 17825792 0 from rfl, List.length_replicate]
  have hlen : requestContentLength [("photo", bigFile)] = 17825792 := by
    unfold requestContentLength
    simp only [List.map_cons, List.map_nil, List.sum_cons, List.sum_nil,
      show bigFile.content = List.replicate 17825792 0 from rfl, List.length_replicate]
    rfl
  have hf : filesLookup [("photo", bigFile)] "photo" = some bigFile := by
    unfold filesLookup
    rw [if_pos rfl]
  have hn : bigFile.filename ≠ "" := by decide
  have hc : bigFile.content ≠ [] := by
    intro hnil
    have h0 : bigFile.content.length = 17825792 := hclen
    rw [hnil] at h0
    exact absurd h0 (by decide)
  have hh : handleUpload sampleEnv [("photo", bigFile)] [] =
      upload sampleEnv [("photo", bigFile)] [] := rfl
  have hu : upload sampleEnv [("photo", bigFile)] [] =
      uploadStaged sampleEnv bigFile [] :=
    upload_eq_uploadStaged _ _ _ _ hf hn
  refine ⟨hlen, by rw [hlen]; omega, ?_, ?_⟩
  · rw [hh, hu, uploadStaged_saved sampleEnv bigFile [] rfl hc]
    rfl
  · rw [hh, hu]
    exact uploadStaged_saves_eq sampleEnv bigFile []

/-- C7, amended: the app configures no maximum request size — Flask's
MAX_CONTENT_LENGTH keeps its default `none` — so the framework size gate is
inert: the handler runs on every request, of any payload size, and no
request is ever answered 413. -/
theorem C7_no_size_limit (env : Env) (files : List (String × FileStorage))
    (fs : FsState) :
    handleUpload env files fs = upload env files fs ∧
    (handleUpload env files fs).status ≠ 413 := by
  refine ⟨rfl, ?_⟩
  show (upload env files fs).status ≠ 413
  unfold upload
  cases hph : filesLookup files "photo" with
  | none => simp
  | some f =>
      dsimp only
      by_cases h1 : f.filename = ""
      · rw [if_pos h1]
        simp
      · rw [if_neg h1]
        by_cases h2 : fileTruthy f = false
        · rw [if_pos h2]
          simp
        · rw [if_neg h2]
          rcases uploadStaged_status_or env f fs with h | h <;> omega

/-- C7, witness: the amended theorem at a concrete request — the size gate
is inert, the handler runs directly. -/
theorem C7_witness :
    handleUpload sampleEnv [("photo", sampleJpg)] [] =
      upload sampleEnv [("photo", sampleJpg)] [] :=
  (C7_no_size_limit sampleEnv [("photo", sampleJpg)] []).1

/-- A sample blob listing: two names outside the fixed logical namespace
and three under it, one of them without a creation time. -/
def sampleBlobs : List Blob :=
  [ { name := "esp32cam/esp32cam_1.jpg", size := 3, timeCreated := none }
  , { name := "other/readme.txt", size := 9, timeCreated := some "2026-01-01T00:00:00" }
  , { name := "esp32cam/esp32cam_2.jpg", size := 5, timeCreated := some "2025-01-02T03:04:05" }
  , { name := "esp32cam/esp32cam_3.jpg", size := 2, timeCreated := some "2023-05-05T00:00:00" } ]

/-- C8: the listing contains only entries under the `esp32cam/` namespace
and is sorted by creation time descending (every later entry's sort key is
`≤` every earlier one's); provided no blob reports the empty string as its
creation-time text — an ISO-8601 rendering never is empty — every entry
without a creation time sorts after all entries that have one. -/
theorem C8_listing_sorted (bucketName : String) (blobs : List Blob)
    (h : ∀ b ∈ blobs, b.timeCreated ≠ some "") :
    (∀ e ∈ list_files bucketName blobs,
      String.isPrefixOf "esp32cam/" e.name = true) ∧
    (list_files bucketName blobs).Pairwise (fun a b => sortKey b ≤ sortKey a) ∧
    (list_files bucketName blobs).Pairwise
      (fun a b => a.created = none → b.created = none) := by
  have hmem : ∀ e ∈ list_files bucketName blobs,
      ∃ b ∈ blobs, String.isPrefixOf "esp32cam/" b.name = true ∧
        e.created = b.timeCreated ∧ e.name = b.name := by
    intro e he
    unfold list_files at he
    rw [mem_sortByCreatedDesc, List.mem_map] at he
    obtain ⟨b, hb, rfl⟩ := he
    rw [List.mem_filter] at hb
    exact ⟨b, hb.1, hb.2, rfl, rfl⟩
  refine ⟨?_, pairwise_sortByCreatedDesc _, ?_⟩
  · intro e he
    obtain ⟨b, -, hpre, -, hname⟩ := hmem e he
    rw [hname]
    exact hpre
  · refine none_sorts_last (pairwise_sortByCreatedDesc _) ?_
    intro e he
    obtain ⟨b, hbmem, -, hcreated, -⟩ := hmem e he
    rw [hcreated]
    exact h b hbmem

/-- C8, witness: sortedness of the listing of the sample blobs. -/
theorem C8_witness :
    (list_files "demo-bucket" sampleBlobs).Pairwise
      (fun a b => sortKey b ≤ sortKey a) :=
  (C8_listing_sorted "demo-bucket" sampleBlobs (by decide)).2.1

end ESP32Cam
